import Mathlib

/-!
Verification of `Support/bin/llm_common.py`, the common utilities of an
LLM-based email classification plugin.  Each Python function that the
claims touch is shallowly embedded as a Lean definition; external effects
(the HTTP response, the configuration file, the keychain entry) are made
explicit inputs.  Python strings are modelled as Lean `String`s (sequences
of code points), Python exceptions as an explicit error type, and JSON
values as the inductive `JVal`.
-/

/-- A JSON value, as produced by Python's `json.loads` / consumed by
`json.dumps`.  Numbers are split into integers (`int`) and floats; a float
is kept as its exact decimal value `mantissa / 10 ^ scale`, which represents
every float literal occurring in the source (the only one is `0.1`,
modelled as `flt 1 1`).  Objects are association lists of string keys in
insertion order, as Python dicts are. -/
inductive JVal where
  | null : JVal
  | bool (b : Bool) : JVal
  | int (n : Int) : JVal
  | flt (mantissa : Int) (scale : Nat) : JVal
  | str (s : String) : JVal
  | arr (elems : List JVal) : JVal
  | obj (fields : List (String × JVal)) : JVal

/-- A Python exception, as far as this module can raise one:
`keyError` / `keyErrorNat` from dict subscripting, `indexError` from list
subscripting, `typeError` from an operation on the wrong type, and
`raisedError msg` for the module's own `raise Exception(msg)`. -/
inductive PyExc where
  | keyError (k : String) : PyExc
  | keyErrorNat (n : Nat) : PyExc
  | indexError : PyExc
  | typeError (msg : String) : PyExc
  | raisedError (msg : String) : PyExc
deriving DecidableEq

/-- Python's `k in v` for a string `k`: key containment for a dict,
membership (string equality against elements) for a list, substring test
for a string, `TypeError` otherwise. -/
def py_contains (k : String) : JVal → Except PyExc Bool
  | .obj fields => .ok (fields.any (fun f => f.1 = k))
  | .arr elems => .ok (elems.any (fun e => match e with | .str s => s = k | _ => false))
  | .str s => .ok (decide (k.data <:+: s.data))
  | _ => .error (.typeError ("argument is not iterable"))

/-- Python's `v[k]` for a string key `k`: first-match dict lookup
(`json.loads` produces distinct keys, so first-match agrees with Python),
`KeyError` when the key is absent, `TypeError` on a list, string or
scalar. -/
def py_subscript_str (v : JVal) (k : String) : Except PyExc JVal :=
  match v with
  | .obj fields =>
    match fields.lookup k with
    | some x => .ok x
    | none => .error (.keyError k)
  | .arr _ => .error (.typeError ("list indices must be integers"))
  | .str _ => .error (.typeError ("string indices must be integers"))
  | _ => .error (.typeError ("object is not subscriptable"))

/-- Python's `v[i]` for a non-negative integer `i`: list indexing
(`IndexError` out of range), string indexing (a one-character string),
`KeyError` on a dict whose keys are strings, `TypeError` on a scalar. -/
def py_subscript_idx (v : JVal) (i : Nat) : Except PyExc JVal :=
  match v with
  | .arr elems =>
    match elems.get? i with
    | some x => .ok x
    | none => .error .indexError
  | .str s =>
    match s.data.get? i with
    | some c => .ok (.str (String.mk [c]))
    | none => .error .indexError
  | .obj _ => .error (.keyErrorNat i)
  | _ => .error (.typeError ("object is not subscriptable"))

/-- Python's `len(v)`: length of a string, list or dict, `TypeError`
otherwise. -/
def py_len : JVal → Except PyExc Nat
  | .str s => .ok s.length
  | .arr elems => .ok elems.length
  | .obj fields => .ok fields.length
  | _ => .error (.typeError ("object has no len"))

/-- Embeds the success-path response handling of `call_llm_api`
(`llm_common.py` lines 193-197):

```python
if "choices" in result and len(result["choices"]) > 0:
    return result["choices"][0]["message"]["content"]
return None
```

The source evaluates `result["choices"]` twice; both evaluations are pure
and identical, so it is bound once here.  `Except.error` models an
uncaught Python exception escaping `call_llm_api`; `.ok none` models
`return None`. -/
def parse_llm_response (result : JVal) : Except PyExc (Option JVal) := do
  let has ← py_contains ("choices") result
  if has then
    let choices ← py_subscript_str result ("choices")
    let n ← py_len choices
    if 0 < n then
      let first ← py_subscript_idx choices 0
      let msg ← py_subscript_str first ("message")
      let content ← py_subscript_str msg ("content")
      return (some content)
    else
      return none
  else
    return none

/-- The outcome of `urllib.request.urlopen` on the request, made an
explicit input: a transport failure (`URLError` with a reason), an HTTP
error status (`HTTPError` with a code, and `fp = some body` when the body
could be read, `none` when `e.fp` is unavailable), or a success whose body
decoded as the JSON value carried (the claims quantify over JSON
responses, so `json.loads` is applied before entry to this model). -/
inductive HttpOutcome where
  | transportError (reason : String) : HttpOutcome
  | httpStatusError (code : Nat) (fp : Option String) : HttpOutcome
  | success (body : JVal) : HttpOutcome

/-- Embeds the `try/except` of `call_llm_api` (`llm_common.py` lines
191-202): an `HTTPError` becomes `raise Exception(f"API error {e.code}:
{error_body}")` with `error_body = e.read().decode() if e.fp else ""`, a
`URLError` becomes `raise Exception(f"Connection error: {e.reason}")`,
and a success body is handled by `parse_llm_response` with any exception
it raises (e.g. `KeyError`) escaping uncaught. -/
def call_llm_api_receive : HttpOutcome → Except PyExc (Option JVal)
  | .transportError reason => .error (.raisedError ("Connection error: " ++ reason))
  | .httpStatusError code fp =>
    .error (.raisedError ("API error " ++ Nat.repr code ++ ": " ++ fp.getD ("")))
  | .success body => parse_llm_response body

/-- Python's `s.replace(old, new)` for a one-character `old`: every
occurrence of `old` is replaced by `new`, scanning left to right. -/
def replaceChar (old : Char) (new : List Char) (s : List Char) : List Char :=
  s.flatMap (fun c => if c = old then new else [c])

/-- List-level body of `escape_for_applescript` (`llm_common.py` lines
41-45): first `text.replace("\\", "\\\\")`, then
`text.replace('"', '\\"')`. -/
def escape_chars (s : List Char) : List Char :=
  replaceChar ('"') ['\\', '"'] (replaceChar ('\\') ['\\', '\\'] s)

/-- Embeds `escape_for_applescript`: escape backslash first, then double
quote. -/
def escape_for_applescript (text : String) : String :=
  String.mk (escape_chars text.data)

/-- What a character becomes under `escape_chars`: the single-pass view of
the two replacements (the first pass introduces no quote, so the second
pass only touches original quotes). -/
def escChar (c : Char) : List Char :=
  if c = '\\' then ['\\', '\\'] else if c = '"' then ['\\', '"'] else [c]

/-- The target interpreter's unescaping of backslash escapes: a backslash
takes the following character literally; a trailing lone backslash is kept
as itself. -/
def applescript_unescape : List Char → List Char
  | [] => []
  | c :: rest =>
    if c = '\\' then
      match rest with
      | [] => ['\\']
      | d :: rest2 => d :: applescript_unescape rest2
    else
      c :: applescript_unescape rest

/-- The fixed icon path constant `MAILMATE_ICON` (`llm_common.py` line 18). -/
def MAILMATE_ICON : String := "/Applications/MailMate.app/Contents/Resources/MailMate.icns"

/-- The AppleScript text `show_alert` builds, as a function of the already
prepared (escaped or not) embedded values; the literal text is the
f-string of `llm_common.py` lines 52-57 (`{{` in the f-string renders the
literal brace, written `\x7b`/`\x7d` here). -/
def alert_script_template (message title : String) : String :=
  "\n    set iconPath to POSIX file \"" ++ MAILMATE_ICON ++
  "\"\n    tell application \"System Events\"\n        display dialog \"" ++ message ++
  "\" with title \"" ++ title ++
  "\" buttons \x7b\"OK\"\x7d default button \"OK\" with icon iconPath\n    end tell\n    "

/-- Embeds `show_alert` (`llm_common.py` lines 48-58): both `message` and
`title` are passed through `escape_for_applescript` before being embedded
into the script text. -/
def show_alert_script (message title : String) : String :=
  alert_script_template (escape_for_applescript message) (escape_for_applescript title)

/-- The AppleScript text `show_dialog` builds from the prepared embedded
values; the literal text is the f-string of `llm_common.py` lines 67-73,
with `hidden_str` the third hole (the source leaves one space on each
side of it, kept here). -/
def dialog_script_template (message default_answer hidden_str title : String) : String :=
  "\n    set iconPath to POSIX file \"" ++ MAILMATE_ICON ++
  "\"\n    tell application \"System Events\"\n        set dialogResult to display dialog \"" ++
  message ++ "\" default answer \"" ++ default_answer ++ "\" " ++ hidden_str ++
  " buttons \x7b\"Cancel\", \"OK\"\x7d default button \"OK\" with title \"" ++ title ++
  "\" with icon iconPath\n        return text returned of dialogResult\n    end tell\n    "

/-- Embeds `show_dialog` (`llm_common.py` lines 61-74): `message`,
`default_answer` and `title` are escaped; `hidden_str` is
`"with hidden answer"` when `hidden` is set, else the empty string. -/
def show_dialog_script (message default_answer : String) (hidden : Bool) (title : String) : String :=
  dialog_script_template (escape_for_applescript message) (escape_for_applescript default_answer)
    (if hidden then "with hidden answer" else "") (escape_for_applescript title)

/-- The AppleScript text `show_threat_dialog` builds from the prepared
embedded values; the literal text is the f-string of `llm_common.py`
lines 81-91 (the threat type, blank line, reason and question are part of
one AppleScript string literal spanning several lines). -/
def threat_script_template (threat_type reason title : String) : String :=
  "\n    set iconPath to POSIX file \"" ++ MAILMATE_ICON ++
  "\"\n    tell application \"System Events\"\n        set dialogResult to display dialog \"" ++
  threat_type ++ "\n\nReason: " ++ reason ++
  "\n\nMove to Junk folder?\" buttons \x7b\"Keep\", \"Move to Junk\"\x7d default button \"Move to Junk\" with title \"" ++
  title ++
  "\" with icon iconPath\n        return button returned of dialogResult\n    end tell\n    "

/-- Embeds `show_threat_dialog` (`llm_common.py` lines 77-91) as written:
the source escapes `reason` (line 79) and `title` (line 80) but embeds
`threat_type` into the f-string without escaping it. -/
def show_threat_dialog_script (threat_type reason title : String) : String :=
  threat_script_template threat_type (escape_for_applescript reason)
    (escape_for_applescript title)

/-- Modelled from the spec: the script `show_threat_dialog` would build if,
as section 4.1 of the spec requires of every string value passed into the
dialog-rendering subsystem, `threat_type` were escaped like the others. -/
def show_threat_dialog_script_spec (threat_type reason title : String) : String :=
  threat_script_template (escape_for_applescript threat_type) (escape_for_applescript reason)
    (escape_for_applescript title)

/-- The state of the configuration file, as `load_config` can encounter
it: absent (`os.path.exists` is false), present but unreadable (`open` or
`read` raises), present but not valid JSON (`json.load` raises), or
present with content that parses to a JSON value. -/
inductive FileState where
  | missing : FileState
  | unreadable : FileState
  | invalid : FileState
  | valid (v : JVal) : FileState

/-- Embeds `load_config` (`llm_common.py` lines 96-104): when the file
exists it is opened and parsed inside `try/except Exception`, so every
reading or parsing failure falls through to `return None`; only a file
that parses yields its mapping. -/
def load_config : FileState → Option JVal
  | .missing => none
  | .unreadable => none
  | .invalid => none
  | .valid v => some v

/-- Embeds `save_config` (`llm_common.py` lines 107-111): after ensuring
the directory exists, the file is opened with mode `"w"` (truncating) and
the mapping is written as JSON, so the new state is `valid config`
whatever the previous state was — a full replacement, not a merge. -/
def save_config (config : JVal) (_prev : FileState) : FileState :=
  .valid config

/-- Python whitespace as `str.strip()` removes it, restricted to the ASCII
whitespace characters (space, tab, linefeed, carriage return, vertical
tab, form feed); the secrets at issue are ASCII. -/
def isPyWhitespace (c : Char) : Bool :=
  c = ' ' || c = '\t' || c = '\n' || c = '\r' || c = '\x0b' || c = '\x0c'

/-- Python's `s.strip()`: drop whitespace from both ends. -/
def pystrip (s : String) : String :=
  String.mk (((s.data.dropWhile isPyWhitespace).reverse.dropWhile isPyWhitespace).reverse)

/-- The keychain entry for the fixed service/account pair, made an
explicit input: `none` when no entry exists, `some secret` otherwise. -/
def KeychainState := Option String

/-- Embeds `get_api_key_from_keychain` (`llm_common.py` lines 114-132):
`security find-generic-password -w` prints the stored secret (followed by
a newline) on success, and the source returns `result.stdout.strip()` —
so the caller receives the stored secret with leading and trailing
whitespace stripped; with no entry the tool exits non-zero and the
function returns `None`. -/
def get_api_key_from_keychain (store : KeychainState) : Option String :=
  Option.map pystrip store

/-- Embeds `save_api_key_to_keychain` (`llm_common.py` lines 135-160): a
best-effort `delete-generic-password` (result ignored) followed by
`add-generic-password -w api_key -U`, leaving the entry holding exactly
`api_key` whatever was stored before. -/
def save_api_key_to_keychain (api_key : String) (_store : KeychainState) : KeychainState :=
  some api_key

/-- The truncation marker appended by `call_llm_api` (`llm_common.py`
line 175). -/
def TRUNCATION_MARKER : String := "\n\n[... truncated due to length ...]"

/-- Embeds the truncation step of `call_llm_api` (`llm_common.py` lines
172-175): content longer than `max_chars = 30000` characters is cut to
its first 30000 characters (`email_content[:30000]`) with the marker
appended; shorter content is left untouched. -/
def truncate_email (email_content : String) : String :=
  if 30000 < email_content.length then
    String.mk (email_content.data.take 30000) ++ TRUNCATION_MARKER
  else
    email_content

/-- Embeds the header construction of `call_llm_api` (`llm_common.py`
lines 165-170): always `Content-Type`, and `Authorization: Bearer <key>`
exactly when `if api_key:` holds — i.e. the key is present and non-empty
(`None` and `""` are both falsy). -/
def call_llm_api_headers (api_key : Option String) : List (String × String) :=
  [("Content-Type", "application/json")] ++
    (match api_key with
     | some k => if k = "" then [] else [("Authorization", "Bearer " ++ k)]
     | none => [])

/-- Embeds the payload construction of `call_llm_api` (`llm_common.py`
lines 177-185), after the truncation step has been applied to the email
content: the `messages` list holds exactly the system prompt and then the
user-role email content; `max_completion_tokens` is 256 and `temperature`
is the float literal `0.1` (= `flt 1 1`). -/
def call_llm_api_payload (model system_prompt email_content : String) : JVal :=
  .obj [
    ("model", .str model),
    ("messages", .arr [
      .obj [("role", .str ("system")), ("content", .str system_prompt)],
      .obj [("role", .str ("user")), ("content", .str (truncate_email email_content))]]),
    ("max_completion_tokens", .int 256),
    ("temperature", .flt 1 1)]

/-- Lowercase hexadecimal digit for `n < 16`. -/
def hexDigit (n : Nat) : Char :=
  if n < 10 then Char.ofNat (48 + n) else Char.ofNat (87 + n)

/-- Four lowercase hexadecimal digits of `n < 0x10000`, most significant
first. -/
def hex4 (n : Nat) : List Char :=
  [hexDigit (n / 4096 % 16), hexDigit (n / 256 % 16), hexDigit (n / 16 % 16), hexDigit (n % 16)]

/-- How Python's `json.dumps` (default `ensure_ascii=True`) renders a
character inside a string literal: the two-character escapes for quote,
backslash and the common control characters, `\uXXXX` for the remaining
characters outside printable ASCII (a surrogate pair above the basic
plane), the character itself otherwise. -/
def json_escape_char (c : Char) : List Char :=
  if c = '"' then ['\\', '"']
  else if c = '\\' then ['\\', '\\']
  else if c = '\n' then ['\\', 'n']
  else if c = '\r' then ['\\', 'r']
  else if c = '\t' then ['\\', 't']
  else if c = '\x08' then ['\\', 'b']
  else if c = '\x0c' then ['\\', 'f']
  else if c.toNat < 32 || 126 < c.toNat then
    if c.toNat < 65536 then
      '\\' :: 'u' :: hex4 c.toNat
    else
      ('\\' :: 'u' :: hex4 (55296 + (c.toNat - 65536) / 1024)) ++
        ('\\' :: 'u' :: hex4 (56320 + (c.toNat - 65536) % 1024))
  else [c]

/-- A JSON string literal as `json.dumps` writes it. -/
def json_quote (s : String) : String :=
  String.mk ('"' :: (s.data.flatMap json_escape_char ++ ['"']))

/-- A float `mantissa / 10 ^ scale` rendered in decimal, as `repr` renders
the exact decimal floats this module contains (`0.1` → `"0.1"`). -/
def json_dumps_flt (m : Int) (e : Nat) : String :=
  let sign := if m < 0 then "-" else ""
  let digits := Nat.repr m.natAbs
  let padded := String.mk (List.replicate (e + 1 - digits.length) '0') ++ digits
  let ip := String.mk (padded.data.take (padded.length - e))
  let tail := if e = 0 then "0" else String.mk (padded.data.drop (padded.length - e))
  sign ++ ip ++ "." ++ tail

mutual

/-- Python's `json.dumps` with its default separators (`", "` between
items, `": "` between a key and its value) and default `ensure_ascii`. -/
def json_dumps : JVal → String
  | .null => "null"
  | .bool b => if b then "true" else "false"
  | .int n => toString n
  | .flt m e => json_dumps_flt m e
  | .str s => json_quote s
  | .arr elems => "[" ++ json_dumps_elems elems ++ "]"
  | .obj fields => "\x7b" ++ json_dumps_fields fields ++ "\x7d"

/-- The comma-separated items of a JSON array. -/
def json_dumps_elems : List JVal → String
  | [] => ""
  | [x] => json_dumps x
  | x :: y :: rest => json_dumps x ++ ", " ++ json_dumps_elems (y :: rest)

/-- The comma-separated `"key": value` pairs of a JSON object. -/
def json_dumps_fields : List (String × JVal) → String
  | [] => ""
  | [(k, v)] => json_quote k ++ ": " ++ json_dumps v
  | (k, v) :: y :: rest => json_quote k ++ ": " ++ json_dumps v ++ ", " ++ json_dumps_fields (y :: rest)

end

/-- Embeds `output_actions` (`llm_common.py` lines 205-209): with the
default argument (`None`, modelled `none`) the action list is `[]`, and
the function prints the one line `json.dumps({"actions": actions})`.  The
value here is the text of that line. -/
def output_actions (actions : Option (List JVal)) : String :=
  json_dumps (.obj [("actions", .arr (actions.getD []))])

/-- Embeds `move_to_junk_action` (`llm_common.py` lines 212-214). -/
def move_to_junk_action : JVal :=
  .obj [("type", .str ("moveMessage")), ("mailboxType", .str ("junk"))]

/-- First-match lookup of a key in a JSON object, `none` on other values:
the observation the payload claims are stated through. -/
def jlookup (v : JVal) (k : String) : Option JVal :=
  match v with
  | .obj fields => fields.lookup k
  | _ => none

/-! ## Helper lemmas -/

/-- Unfolding of a one-character `replace` over a cons cell. -/
theorem replaceChar_cons (old : Char) (new : List Char) (c : Char) (s : List Char) :
    replaceChar old new (c :: s) = (if c = old then new else [c]) ++ replaceChar old new s := by
  simp [replaceChar]

/-- The two replacement passes act on each source character independently:
backslash doubles, a quote gains a backslash, everything else is kept. -/
theorem escape_chars_cons (c : Char) (s : List Char) :
    escape_chars (c :: s) = escChar c ++ escape_chars s := by
  by_cases h1 : c = '\\'
  · subst h1
    simp [escape_chars, replaceChar, escChar]
  · by_cases h2 : c = '"'
    · subst h2
      simp [escape_chars, replaceChar, escChar]
    · simp [escape_chars, replaceChar, escChar, h1, h2]

/-- Unescaping steps over an unescaped character. -/
theorem unescape_cons_of_ne (c : Char) (rest : List Char) (h1 : ¬ c = '\\') :
    applescript_unescape (c :: rest) = c :: applescript_unescape rest := by
  rw [applescript_unescape.eq_def]
  simp [h1]

/-- Unescaping consumes the escape of one character and returns that
character. -/
theorem unescape_escChar (c : Char) (rest : List Char) :
    applescript_unescape (escChar c ++ rest) = c :: applescript_unescape rest := by
  by_cases h1 : c = '\\'
  · subst h1
    simp [escChar, applescript_unescape]
  · by_cases h2 : c = '"'
    · subst h2
      simp [escChar, applescript_unescape]
    · simp [escChar, h1, h2, unescape_cons_of_ne]

/-- Unescaping inverts the character-level escaping. -/
theorem unescape_escape_chars (s : List Char) :
    applescript_unescape (escape_chars s) = s := by
  induction s with
  | nil => rfl
  | cons c s ih => rw [escape_chars_cons, unescape_escChar, ih]

/-- A key with no match makes the membership test of `py_contains` false. -/
theorem lookup_none_any_false (k : String) (fields : List (String × JVal))
    (h : fields.lookup k = none) : fields.any (fun f => f.1 = k) = false := by
  induction fields with
  | nil => rfl
  | cons f fs ih =>
    obtain ⟨a, b⟩ := f
    rw [List.lookup_cons] at h
    by_cases hk : k = a
    · have hb : (k == a) = true := by simp [hk]
      rw [hb] at h
      exact absurd h (by simp)
    · have hb : (k == a) = false := by simp [hk]
      rw [hb] at h
      have h2 : List.lookup k fs = none := h
      simp only [List.any_cons, Bool.or_eq_false_iff]
      constructor
      · simp
        exact fun hak => hk hak.symm
      · exact ih h2

/-- A key with a match makes the membership test of `py_contains` true. -/
theorem lookup_some_any_true (k : String) (v : JVal) (fields : List (String × JVal))
    (h : fields.lookup k = some v) : fields.any (fun f => f.1 = k) = true := by
  induction fields with
  | nil => simp [List.lookup] at h
  | cons f fs ih =>
    obtain ⟨a, b⟩ := f
    rw [List.lookup_cons] at h
    by_cases hk : k = a
    · simp [List.any_cons, hk]
    · have hb : (k == a) = false := by simp [hk]
      rw [hb] at h
      have h2 : List.lookup k fs = some v := h
      simp only [List.any_cons, ih h2, Bool.or_true]

/-- A response object without a `choices` key takes the `return None`
branch. -/
theorem parse_no_choices (fields : List (String × JVal))
    (h : fields.lookup ("choices") = none) :
    parse_llm_response (.obj fields) = .ok none := by
  have ha := lookup_none_any_false _ _ h
  simp [parse_llm_response, py_contains, ha, Bind.bind, Except.bind, pure, Except.pure]

/-- A response object with an empty `choices` list takes the
`return None` branch. -/
theorem parse_empty_choices (fields : List (String × JVal))
    (h : fields.lookup ("choices") = some (.arr [])) :
    parse_llm_response (.obj fields) = .ok none := by
  have ha := lookup_some_any_true _ _ _ h
  simp [parse_llm_response, py_contains, ha, py_subscript_str, h, py_len,
    Bind.bind, Except.bind, pure, Except.pure]

/-- A first choice with the full `message.content` shape yields its
content. -/
theorem parse_good_choice (fields mfields cfields : List (String × JVal))
    (rest : List JVal) (content : JVal)
    (h1 : fields.lookup ("choices") = some (.arr (.obj mfields :: rest)))
    (h2 : mfields.lookup ("message") = some (.obj cfields))
    (h3 : cfields.lookup ("content") = some content) :
    parse_llm_response (.obj fields) = .ok (some content) := by
  have ha := lookup_some_any_true _ _ _ h1
  simp [parse_llm_response, py_contains, ha, py_subscript_str, h1, py_len,
    py_subscript_idx, h2, h3, Bind.bind, Except.bind, pure, Except.pure,
    Functor.map, Except.map]

/-- A first choice lacking the `message` key raises `KeyError`. -/
theorem parse_missing_message (fields mfields : List (String × JVal))
    (rest : List JVal)
    (h1 : fields.lookup ("choices") = some (.arr (.obj mfields :: rest)))
    (h2 : mfields.lookup ("message") = none) :
    parse_llm_response (.obj fields) = .error (.keyError ("message")) := by
  have ha := lookup_some_any_true _ _ _ h1
  simp [parse_llm_response, py_contains, ha, py_subscript_str, h1, py_len,
    py_subscript_idx, h2, Bind.bind, Except.bind, pure, Except.pure,
    Functor.map, Except.map]

/-- A message object lacking the `content` key raises `KeyError`. -/
theorem parse_missing_content (fields mfields cfields : List (String × JVal))
    (rest : List JVal)
    (h1 : fields.lookup ("choices") = some (.arr (.obj mfields :: rest)))
    (h2 : mfields.lookup ("message") = some (.obj cfields))
    (h3 : cfields.lookup ("content") = none) :
    parse_llm_response (.obj fields) = .error (.keyError ("content")) := by
  have ha := lookup_some_any_true _ _ _ h1
  simp [parse_llm_response, py_contains, ha, py_subscript_str, h1, py_len,
    py_subscript_idx, h2, h3, Bind.bind, Except.bind, pure, Except.pure,
    Functor.map, Except.map]

/-- Fixpoint characterisation of `dropWhile`: it leaves a list unchanged
exactly when the predicate fails on its head. -/
theorem dropWhile_eq_self_head (p : Char → Bool) (l : List Char) :
    l.dropWhile p = l ↔ (∀ c, l.head? = some c → p c = false) := by
  cases l with
  | nil => simp
  | cons a l =>
    by_cases h : p a
    · rw [List.dropWhile_cons_of_pos h]
      constructor
      · intro he
        exfalso
        have hlen := congrArg List.length he
        have : (l.dropWhile p).length ≤ l.length := (List.dropWhile_suffix p).length_le
        simp at hlen
        omega
      · intro hc
        exact absurd (hc a rfl) (by simp [h])
    · rw [List.dropWhile_cons_of_neg h]
      constructor
      · intro _ c hc
        cases hc
        simp [h]
      · intro _
        rfl

/-- Stripping fixes a string exactly when neither end carries
whitespace. -/
theorem pystrip_eq_self_iff (s : String) :
    pystrip s = s ↔
      ((∀ c, s.data.head? = some c → isPyWhitespace c = false) ∧
       (∀ c, s.data.getLast? = some c → isPyWhitespace c = false)) := by
  constructor
  · intro h
    have hd : ((s.data.dropWhile isPyWhitespace).reverse.dropWhile isPyWhitespace).reverse
        = s.data := congrArg String.data h
    have l1 : (s.data.dropWhile isPyWhitespace).length ≤ s.data.length :=
      (List.dropWhile_suffix _).length_le
    have l2 : ((s.data.dropWhile isPyWhitespace).reverse.dropWhile isPyWhitespace).length ≤
        (s.data.dropWhile isPyWhitespace).reverse.length :=
      (List.dropWhile_suffix _).length_le
    have l3 := congrArg List.length hd
    simp only [List.length_reverse] at l2 l3
    have e1 : s.data.dropWhile isPyWhitespace = s.data :=
      (List.dropWhile_suffix _).eq_of_length (by omega)
    have e2 : (s.data.dropWhile isPyWhitespace).reverse.dropWhile isPyWhitespace =
        (s.data.dropWhile isPyWhitespace).reverse :=
      (List.dropWhile_suffix _).eq_of_length (by simp only [List.length_reverse]; omega)
    rw [e1] at e2
    refine ⟨(dropWhile_eq_self_head _ _).mp e1, ?_⟩
    intro c hc
    exact (dropWhile_eq_self_head _ _).mp e2 c (by rw [List.head?_reverse]; exact hc)
  · rintro ⟨h1, h2⟩
    have e1 : s.data.dropWhile isPyWhitespace = s.data :=
      (dropWhile_eq_self_head _ _).mpr h1
    have e2 : s.data.reverse.dropWhile isPyWhitespace = s.data.reverse :=
      (dropWhile_eq_self_head _ _).mpr
        (fun c hc => h2 c (by rw [← List.head?_reverse]; exact hc))
    show String.mk (((s.data.dropWhile isPyWhitespace).reverse.dropWhile
      isPyWhitespace).reverse) = s
    rw [e1, e2, List.reverse_reverse]

/-! ## Claim theorems -/

/-- Claim C1, counterexample: on the JSON response
`{"choices": [{}]}` — a non-empty `choices` list whose first choice lacks
the `message` field — `call_llm_api`'s response handling raises `KeyError`
instead of returning `None`, so the claim that every absent shape
(including a choice lacking message/content) yields none is false. -/
theorem parse_llm_response_missing_message_raises :
    parse_llm_response (.obj [("choices", .arr [.obj []])]) =
        .error (.keyError ("message")) ∧
      parse_llm_response (.obj [("choices", .arr [.obj []])]) ≠ .ok none := by
  refine ⟨rfl, fun h => ?_⟩
  have h2 : (Except.error (PyExc.keyError ("message")) : Except PyExc (Option JVal)) =
      .ok none := h
  exact absurd h2 (by simp)

/-- Claim C1 as amended: for JSON-object responses, the handler returns
the first choice's message content when `choices` is non-empty and its
first element carries an object `message` with a `content` field; it
returns `None` (not an error) when `choices` is missing or empty; but
when the first choice lacks `message`, or its message lacks `content`,
it raises `KeyError` rather than returning `None`. -/
theorem parse_llm_response_shape_cases :
    (∀ fields, List.lookup ("choices") fields = none →
      parse_llm_response (.obj fields) = .ok none) ∧
    (∀ fields, List.lookup ("choices") fields = some (.arr []) →
      parse_llm_response (.obj fields) = .ok none) ∧
    (∀ fields mfields cfields rest content,
      List.lookup ("choices") fields = some (.arr (.obj mfields :: rest)) →
      List.lookup ("message") mfields = some (.obj cfields) →
      List.lookup ("content") cfields = some content →
      parse_llm_response (.obj fields) = .ok (some content)) ∧
    (∀ fields mfields rest,
      List.lookup ("choices") fields = some (.arr (.obj mfields :: rest)) →
      List.lookup ("message") mfields = none →
      parse_llm_response (.obj fields) = .error (.keyError ("message"))) ∧
    (∀ fields mfields cfields rest,
      List.lookup ("choices") fields = some (.arr (.obj mfields :: rest)) →
      List.lookup ("message") mfields = some (.obj cfields) →
      List.lookup ("content") cfields = none →
      parse_llm_response (.obj fields) = .error (.keyError ("content"))) :=
  ⟨parse_no_choices, parse_empty_choices,
    fun _ _ _ _ _ h1 h2 h3 => parse_good_choice _ _ _ _ _ h1 h2 h3,
    fun _ _ _ h1 h2 => parse_missing_message _ _ _ h1 h2,
    fun _ _ _ _ h1 h2 h3 => parse_missing_content _ _ _ _ h1 h2 h3⟩

set_option maxRecDepth 40000 in
/-- Claim C2: the source escapes `message`, `title` and `default_answer`
in `show_alert`/`show_dialog` and `reason` and `title` in
`show_threat_dialog`, but embeds `threat_type` into the rendering script
raw.  At the failing input `threat_type = "A\"B"` the script the code
builds differs from the script with every value escaped (the spec's
required behaviour): the raw double quote breaks out of the AppleScript
string literal. -/
theorem show_threat_dialog_threat_type_unescaped :
    show_threat_dialog_script ("A\"B") ("r") ("t") ≠
      show_threat_dialog_script_spec ("A\"B") ("r") ("t") := by decide

/-- Claim C3: email content longer than 30,000 characters is replaced by
its first 30,000 characters followed by the truncation marker — so the
result has length exactly `30000 + TRUNCATION_MARKER.length` and ends
with the marker — and content of at most 30,000 characters is passed
through unchanged. -/
theorem truncate_email_length_and_marker (s : String) :
    (30000 < s.length →
      (truncate_email s).length = 30000 + TRUNCATION_MARKER.length ∧
        TRUNCATION_MARKER.data <:+ (truncate_email s).data) ∧
    (s.length ≤ 30000 → truncate_email s = s) := by
  constructor
  · intro h
    rw [truncate_email, if_pos h]
    constructor
    · rw [String.length_append]
      have h1 : (String.mk (s.data.take 30000)).length = (s.data.take 30000).length := rfl
      have h2 : s.length = s.data.length := rfl
      rw [h1, List.length_take]
      omega
    · rw [String.data_append]
      exact List.suffix_append _ _
  · intro h
    rw [truncate_email, if_neg (by omega)]

/-- Claim C4, counterexample: on a success response whose first choice
lacks `message`, `call_llm_api` raises `KeyError` — a third raising case,
distinct from the `raise Exception(...)` of the transport-error and
HTTP-error handlers — so "raises exactly in two cases and in no others"
is false. -/
theorem call_llm_api_third_raise_case :
    call_llm_api_receive (.success (.obj [("choices", .arr [.obj []])])) =
        .error (.keyError ("message")) ∧
      (∀ m : String, PyExc.keyError ("message") ≠ PyExc.raisedError m) :=
  ⟨rfl, fun _ h => PyExc.noConfusion h⟩

/-- Claim C4 as amended: on a transport-level error `call_llm_api` raises
`Exception("Connection error: <reason>")`, and on an HTTP error status it
raises `Exception("API error <code>: <body>")` with the body empty when
it cannot be read — in particular code 429 with body `"rate limited"`
raises `"API error 429: rate limited"`; on a success response it may
additionally propagate exceptions from the response handling (such as
`KeyError`), so those two are not the only raising cases. -/
theorem call_llm_api_error_conditions :
    (∀ reason, call_llm_api_receive (.transportError reason) =
      .error (.raisedError ("Connection error: " ++ reason))) ∧
    (∀ code fp, call_llm_api_receive (.httpStatusError code fp) =
      .error (.raisedError ("API error " ++ Nat.repr code ++ ": " ++ fp.getD ("")))) ∧
    call_llm_api_receive (.httpStatusError 429 (some ("rate limited"))) =
      .error (.raisedError ("API error 429: rate limited")) ∧
    (∀ body, call_llm_api_receive (.success body) = parse_llm_response body) :=
  ⟨fun _ => rfl, fun _ _ => rfl, rfl, fun _ => rfl⟩

/-- Claim C5: the request body holds the model identifier, exactly the
two messages (system prompt first, then the possibly truncated email
content under the user role), `max_completion_tokens` 256 and
`temperature` 0.1; and the headers carry `Authorization: Bearer <key>`
exactly when a key is provided (`if api_key:` — a missing or empty key,
both falsy, yields no header). -/
theorem call_llm_api_request_shape :
    (∀ model sp ec,
      jlookup (call_llm_api_payload model sp ec) ("model") = some (.str model) ∧
      jlookup (call_llm_api_payload model sp ec) ("messages") =
        some (.arr [.obj [("role", .str ("system")), ("content", .str sp)],
          .obj [("role", .str ("user")), ("content", .str (truncate_email ec))]]) ∧
      jlookup (call_llm_api_payload model sp ec) ("max_completion_tokens") =
        some (.int 256) ∧
      jlookup (call_llm_api_payload model sp ec) ("temperature") = some (.flt 1 1)) ∧
    (∀ k, k ≠ "" → (call_llm_api_headers (some k)).lookup ("Authorization") =
      some ("Bearer " ++ k)) ∧
    ((call_llm_api_headers (some (""))).lookup ("Authorization") = none) ∧
    ((call_llm_api_headers none).lookup ("Authorization") = none) := by
  refine ⟨fun model sp ec => ⟨rfl, rfl, rfl, rfl⟩, ?_, rfl, rfl⟩
  intro k hk
  simp [call_llm_api_headers, hk, List.lookup_cons]

/-- Claim C6: saving a configuration and loading it back returns the
saved mapping whatever state the file was in before (the write replaces
the file rather than merging), and loading with no configuration file
present returns `None` rather than an error. -/
theorem config_save_load_roundtrip :
    (∀ config prev, load_config (save_config config prev) = some config) ∧
    load_config (.missing) = none :=
  ⟨fun _ _ => rfl, rfl⟩

/-- Claim C7: `load_config` is a total function of the file state — every
failure mode (missing file, unreadable file, malformed JSON) yields
`None`, and only a file parsing to a mapping yields that mapping; the
`try/except Exception` around open-and-parse is what makes the embedding
total, i.e. the source never lets an exception escape. -/
theorem load_config_never_raises :
    (∀ fs, load_config fs = none ∨ ∃ v, fs = .valid v ∧ load_config fs = some v) ∧
    load_config (.missing) = none ∧
    load_config (.unreadable) = none ∧
    load_config (.invalid) = none := by
  refine ⟨?_, rfl, rfl, rfl⟩
  intro fs
  cases fs with
  | missing => exact Or.inl rfl
  | unreadable => exact Or.inl rfl
  | invalid => exact Or.inl rfl
  | valid v => exact Or.inr ⟨v, rfl, rfl⟩

/-- Claim C8: unescaping with the target interpreter's backslash rules
inverts `escape_for_applescript` on every input string (in particular
those holding both backslashes and double quotes), and the escaping is
therefore injective. -/
theorem escape_for_applescript_roundtrip :
    (∀ s : String, String.mk (applescript_unescape ((escape_for_applescript s).data)) = s) ∧
    (∀ s t : String, escape_for_applescript s = escape_for_applescript t → s = t) := by
  constructor
  · intro s
    show String.mk (applescript_unescape (escape_chars s.data)) = s
    rw [unescape_escape_chars]
  · intro s t h
    have h2 : escape_chars s.data = escape_chars t.data := congrArg String.data h
    have h3 := congrArg applescript_unescape h2
    rw [unescape_escape_chars, unescape_escape_chars] at h3
    exact String.ext h3

/-- Claim C9: with no actions the emitter prints exactly
`{"actions": []}`, and with the single move-to-junk action exactly
`{"actions": [{"type": "moveMessage", "mailboxType": "junk"}]}`. -/
theorem output_actions_exact_lines :
    output_actions none = "\x7b\"actions\": []\x7d" ∧
      output_actions (some [move_to_junk_action]) =
        "\x7b\"actions\": [\x7b\"type\": \"moveMessage\", \"mailboxType\": \"junk\"\x7d]\x7d" :=
  ⟨rfl, rfl⟩

/-- Claim C10: retrieving after saving returns the saved key with its
ends stripped of whitespace, so the round trip returns the key exactly
iff stripping fixes it, which holds iff the key has no leading and no
trailing whitespace character; concretely, a key with a trailing newline
comes back without it. -/
theorem keychain_strip_roundtrip :
    (∀ key store, get_api_key_from_keychain (save_api_key_to_keychain key store) =
      some (pystrip key)) ∧
    (∀ key store, get_api_key_from_keychain (save_api_key_to_keychain key store) =
      some key ↔ pystrip key = key) ∧
    (∀ key : String, pystrip key = key ↔
      ((∀ c, key.data.head? = some c → isPyWhitespace c = false) ∧
       (∀ c, key.data.getLast? = some c → isPyWhitespace c = false))) ∧
    get_api_key_from_keychain (save_api_key_to_keychain ("abc\n") none) = some ("abc") ∧
    pystrip ("abc\n") ≠ "abc\n" := by
  refine ⟨fun _ _ => rfl, ?_, pystrip_eq_self_iff, rfl, by decide⟩
  intro key store
  constructor
  · intro h
    exact Option.some.inj h
  · intro h
    show some (pystrip key) = some key
    rw [h]
